import Mathlib

/-!
Shallow embedding of the actor-physics core of the `godot-templates`
repository (gdnative-third-person example): the velocity integrator
(`ActorPhysics::integrateViaMidpointMethod`, `integrateViaRungeKutta4Method`),
the gravity / force / impulse / movement queuing operations, the step-climb
budget tracker (`ActorPhysics::rechargeStepClimbBudget`), the velocity
reconciler (`ActorPhysics::updateVelocity`) and the per-tick driver
(`ActorPhysics::_physics_process`), all from
`addons/example-cpp/Source/Actors/ActorPhysics.{h,cpp}`.

The C++ code computes with 32-bit floats; the embedding models float values
as elements of a linear ordered field (instantiated at `ℚ` for executable
checks and at `ℝ` where the trigonometric step-climb computation needs it),
abstracting rounding.  Division by zero, which the step-climb code can reach
and which produces NaN in IEEE arithmetic, is modelled separately by an
explicit NaN-propagation model (`FloatVal`) further below.
-/

set_option autoImplicit false

namespace ActorPhysicsSpec

/-- Godot `Vector3` with components in `α` (the source uses 32-bit floats). -/
structure Vect3 (α : Type) where
  x : α
  y : α
  z : α
  deriving DecidableEq

namespace Vect3

variable {α : Type}

/-- Componentwise vector addition (`godot::Vector3::operator+`). -/
def add [Add α] (v w : Vect3 α) : Vect3 α :=
  ⟨v.x + w.x, v.y + w.y, v.z + w.z⟩

instance [Add α] : Add (Vect3 α) :=
  ⟨add⟩

/-- Componentwise vector subtraction (`godot::Vector3::operator-`). -/
def sub [Sub α] (v w : Vect3 α) : Vect3 α :=
  ⟨v.x - w.x, v.y - w.y, v.z - w.z⟩

instance [Sub α] : Sub (Vect3 α) :=
  ⟨sub⟩

/-- Vector times scalar (`godot::Vector3::operator*(real_t)`). -/
def smul [Mul α] (v : Vect3 α) (s : α) : Vect3 α :=
  ⟨v.x * s, v.y * s, v.z * s⟩

/-- Vector divided by scalar (`godot::Vector3::operator/(real_t)`). -/
def divScalar [Div α] (v : Vect3 α) (s : α) : Vect3 α :=
  ⟨v.x / s, v.y / s, v.z / s⟩

/-- The zero vector, `godot::Vector3(0.0f, 0.0f, 0.0f)`. -/
def zero [Zero α] : Vect3 α :=
  ⟨0, 0, 0⟩

/-- Dot product (`godot::Vector3::dot`). -/
def dot [Add α] [Mul α] (v w : Vect3 α) : α :=
  v.x * w.x + v.y * w.y + v.z * w.z

/-- Squared distance between two points (`godot::Vector3::distance_squared_to`). -/
def distance_squared_to [Add α] [Sub α] [Mul α] (v w : Vect3 α) : α :=
  (w.x - v.x) * (w.x - v.x) + (w.y - v.y) * (w.y - v.y) + (w.z - v.z) * (w.z - v.z)

/-- Euclidean length of a real vector (`godot::Vector3::length`). -/
noncomputable def length (v : Vect3 ℝ) : ℝ :=
  Real.sqrt (v.x * v.x + v.y * v.y + v.z * v.z)

/-- Normalized vector (`godot::Vector3::normalized`): the vector divided by its
length; for the zero vector both Godot and real division by zero yield zero. -/
noncomputable def normalized (v : Vect3 ℝ) : Vect3 ℝ :=
  v.divScalar v.length

theorem ext {v w : Vect3 α} (hx : v.x = w.x) (hy : v.y = w.y) (hz : v.z = w.z) :
    v = w := by
  cases v
  cases w
  cases hx
  cases hy
  cases hz
  rfl

theorem add_def [Add α] (v w : Vect3 α) :
    v + w = ⟨v.x + w.x, v.y + w.y, v.z + w.z⟩ := rfl

theorem sub_def [Sub α] (v w : Vect3 α) :
    v - w = ⟨v.x - w.x, v.y - w.y, v.z - w.z⟩ := rfl

end Vect3

/-- The state of one `ActorPhysics` component, with the fields of
`ActorPhysics` in `ActorPhysics.h` (scalars and vectors over `α`). -/
structure ActorPhysics (α : Type) where
  IsAffectedByGravity : Bool
  GravityVector : Vect3 α
  GravityScale : α
  Mass : α
  MaximumStepHeight : α
  Velocity : Vect3 α
  UseHighQualityIntegration : Bool
  KinematicBodyNodePath : String
  queuedForces : Vect3 α
  queuedImpulses : Vect3 α
  queuedMovement : Vect3 α
  midPointVelocity : Vect3 α
  stepClimbingBudget : α
  deriving DecidableEq

variable {α : Type}

/-- Anonymous-namespace helper `clamp(value, min, max)` of `ActorPhysics.cpp`:
below `min` gives `min`, at or above `max` gives `max`, otherwise the value. -/
def clamp [LinearOrder α] (value lo hi : α) : α :=
  if value < lo then lo
  else if value ≥ hi then hi
  else value

/-- `ActorPhysics::QueueMovement`: accumulate into `queuedMovement`. -/
def QueueMovement [Add α] (s : ActorPhysics α) (movement : Vect3 α) : ActorPhysics α :=
  { s with queuedMovement := s.queuedMovement + movement }

/-- `ActorPhysics::QueueForce`: accumulate into `queuedForces`. -/
def QueueForce [Add α] (s : ActorPhysics α) (force : Vect3 α) : ActorPhysics α :=
  { s with queuedForces := s.queuedForces + force }

/-- `ActorPhysics::QueueImpulse`: accumulate into `queuedImpulses`. -/
def QueueImpulse [Add α] (s : ActorPhysics α) (impulse : Vect3 α) : ActorPhysics α :=
  { s with queuedImpulses := s.queuedImpulses + impulse }

/-- `ActorPhysics::ApplyGravity`: queue the force
`gravity * Mass * GravityScale`. -/
def ApplyGravity [Add α] [Mul α] (s : ActorPhysics α) (gravity : Vect3 α) : ActorPhysics α :=
  QueueForce s ((gravity.smul s.Mass).smul s.GravityScale)

/-- `ActorPhysics::integrateViaMidpointMethod`: returns the translation for
this tick together with the updated component state.  Mirrors the source line
by line: add the previous half-step carry to the velocity, add
`queuedImpulses / Mass`, compute `queuedForces / Mass`, halve it, time-scale
it into the new carry, add the carry now, scale the velocity by the tick
length into the translation, add `queuedMovement`, and clear the queues. -/
def integrateViaMidpointMethod [Add α] [Mul α] [Div α] [OfNat α 2] [Zero α]
    (s : ActorPhysics α) (deltaSeconds : α) : Vect3 α × ActorPhysics α :=
  let velocity1 := s.Velocity + s.midPointVelocity
  let impulses := s.queuedImpulses.divScalar s.Mass
  let velocity2 := velocity1 + impulses
  let acceleration := s.queuedForces.divScalar s.Mass
  let halvedAcceleration := acceleration.divScalar 2
  let midPointVelocity := halvedAcceleration.smul deltaSeconds
  let velocity3 := velocity2 + midPointVelocity
  let translation := velocity3.smul deltaSeconds + s.queuedMovement
  (translation,
    { s with
        Velocity := velocity3
        midPointVelocity := midPointVelocity
        queuedForces := Vect3.zero
        queuedImpulses := Vect3.zero
        queuedMovement := Vect3.zero })

/-- `ActorPhysics::integrateViaRungeKutta4Method`: prints a diagnostic (an
engine side effect outside the state model) and delegates to the midpoint
integrator. -/
def integrateViaRungeKutta4Method [Add α] [Mul α] [Div α] [OfNat α 2] [Zero α]
    (s : ActorPhysics α) (deltaSeconds : α) : Vect3 α × ActorPhysics α :=
  integrateViaMidpointMethod s deltaSeconds

/-- Anonymous-namespace constant `VelocityEpsilon = 1e-4f`. -/
def VelocityEpsilon (α : Type) [LinearOrderedField α] : α :=
  1e-4

/-- `ActorPhysics::updateVelocity`: the velocity reconciler.  Returns the new
value of the `Velocity` field.  First, when the squared distance between the
recorded and the reported velocity exceeds `VelocityEpsilon`, the recorded
velocity is replaced (all axes when `updateHorizontalVelocity`, otherwise only
the vertical axis); then every axis whose reported component magnitude is
below `VelocityEpsilon` is zeroed (horizontal axes only when
`updateHorizontalVelocity`, the vertical axis always). -/
def updateVelocity [LinearOrderedField α]
    (velocity newVelocity : Vect3 α) (updateHorizontalVelocity : Bool) : Vect3 α :=
  let v1 :=
    if velocity.distance_squared_to newVelocity > VelocityEpsilon α then
      if updateHorizontalVelocity then newVelocity
      else ⟨velocity.x, newVelocity.y, velocity.z⟩
    else velocity
  let v2 :=
    if updateHorizontalVelocity then
      { v1 with
          x := if |newVelocity.x| < VelocityEpsilon α then 0 else v1.x
          z := if |newVelocity.z| < VelocityEpsilon α then 0 else v1.z }
    else v1
  if |newVelocity.y| < VelocityEpsilon α then { v2 with y := 0 } else v2

/-- `Geometry::Trigonometry::HalfPI`: half the circle constant. -/
noncomputable def HalfPI : ℝ :=
  Real.pi / 2

/-- `ActorPhysics::rechargeStepClimbBudget` over the reals: from the attempted
translation, compute the movement distance, the normalized movement direction,
the angle of travel relative to the floor plane, split the distance into
vertical and horizontal movement, and clamp the budget plus their balance
into `[-MaximumStepHeight, 0]`.

Domain of faithfulness: the source divides by the distance with NO zero
check, so this real-division model (where `0 / 0 = 0`) is faithful to the
float code only for a NONZERO attempted translation — the theorem
`rechargeFloat_agrees_on_nonzero` below proves it then computes exactly the
same budget as the IEEE NaN-propagation model `rechargeStepClimbBudgetFloat`.
At the zero translation the program instead produces `0.0f / 0.0f = NaN`,
which only the float model captures; no bound theorem below quantifies over
that input through this definition.  (The gravity normalization is different:
Godot guards `Vector3::normalized` with an explicit zero-length check that
returns the zero vector, which real division by zero reproduces.) -/
noncomputable def rechargeStepClimbBudget
    (s : ActorPhysics ℝ) (translation : Vect3 ℝ) : ActorPhysics ℝ :=
  let distance := translation.length
  let direction := translation.divScalar distance
  let directionDotGravity := s.GravityVector.normalized.dot direction
  let angleToFloorPlane := HalfPI - Real.arccos directionDotGravity
  let verticalMovement := Real.sin angleToFloorPlane * distance
  let horizontalMovement := Real.cos angleToFloorPlane * distance
  let balance := horizontalMovement - verticalMovement
  { s with
      stepClimbingBudget :=
        clamp (s.stepClimbingBudget + balance) (-s.MaximumStepHeight) 0 }

/-- `ActorPhysics::_physics_process`: one physics tick.  The kinematic-body
lookup (`getKinematicBody`, an external scene-graph query) is abstracted as a
`Bool`; when it fails the source prints an error and returns with the
component state untouched.  Otherwise gravity is auto-queued when enabled, one
of the two integration paths produces the translation, the external motion
resolver (`moveActor` / `move_and_slide`, abstracted as the oracle
`moveActor`) reports the achieved velocity, the step-climb budget is
recharged from the attempted translation, and the reconciler folds the
reported velocity back into the recorded velocity with
`updateHorizontalVelocity = true`. -/
noncomputable def physicsProcess (s : ActorPhysics ℝ) (kinematicBodyFound : Bool)
    (moveActor : Vect3 ℝ → ℝ → Vect3 ℝ) (deltaSeconds : ℝ) : ActorPhysics ℝ :=
  if kinematicBodyFound = false then s
  else
    let s1 := if s.IsAffectedByGravity then ApplyGravity s s.GravityVector else s
    let integrated :=
      if s1.UseHighQualityIntegration then integrateViaRungeKutta4Method s1 deltaSeconds
      else integrateViaMidpointMethod s1 deltaSeconds
    let translation := integrated.1
    let s2 := integrated.2
    let reportedVelocity := moveActor translation deltaSeconds
    let s3 := rechargeStepClimbBudget s2 translation
    { s3 with Velocity := updateVelocity s3.Velocity reportedVelocity true }

/-! ### IEEE NaN-propagation model of the step-climb recharge

The source computes `direction = translation / distance` with no guard for a
zero distance.  With 32-bit IEEE floats, a zero attempted translation makes
every component the quotient `0.0f / 0.0f = NaN`, and the NaN propagates
through the dot product, the trigonometry and the final `clamp` (both of
whose comparisons are false on NaN) into `stepClimbingBudget`.  `FloatVal`
tracks exactly this: a float value is either NaN or an abstract real.  Only
the values derived from the attempted translation can become NaN here
(configuration fields are ordinary finite floats), so those stay plain reals.
The only division by zero reachable from a zero translation has a zero
numerator, hence produces NaN rather than an infinity, which is why the model
needs no infinite values. -/

/-- A 32-bit float value as the step-climb code sees it: NaN or a real. -/
inductive FloatVal where
  | nan : FloatVal
  | val : ℝ → FloatVal

namespace FloatVal

/-- IEEE addition: NaN absorbs, otherwise real addition. -/
def fadd : FloatVal → FloatVal → FloatVal
  | nan, _ => nan
  | _, nan => nan
  | val a, val b => val (a + b)

/-- IEEE subtraction: NaN absorbs, otherwise real subtraction. -/
def fsub : FloatVal → FloatVal → FloatVal
  | nan, _ => nan
  | _, nan => nan
  | val a, val b => val (a - b)

/-- IEEE multiplication: NaN absorbs (also `NaN * 0 = NaN`), otherwise real
multiplication. -/
def fmul : FloatVal → FloatVal → FloatVal
  | nan, _ => nan
  | _, nan => nan
  | val a, val b => val (a * b)

/-- IEEE division restricted to the cases this code reaches: NaN absorbs, a
zero divisor with a zero numerator gives NaN (the case reached from a zero
translation; a nonzero numerator over zero, which would give an infinity, is
not reachable here because the numerator components never exceed the
distance in magnitude only when both are zero — the evaluation below only
ever divides zero by zero), otherwise real division. -/
noncomputable def fdiv : FloatVal → FloatVal → FloatVal
  | nan, _ => nan
  | _, nan => nan
  | val a, val b => if b = 0 then nan else val (a / b)

/-- `std::sqrt`: NaN absorbs, otherwise the real square root (arguments here
are sums of squares, so never negative). -/
noncomputable def fsqrt : FloatVal → FloatVal
  | nan => nan
  | val a => val (Real.sqrt a)

/-- `std::acos`: NaN absorbs, otherwise the real arccosine. -/
noncomputable def facos : FloatVal → FloatVal
  | nan => nan
  | val a => val (Real.arccos a)

/-- `std::sin`: NaN absorbs, otherwise the real sine. -/
noncomputable def fsin : FloatVal → FloatVal
  | nan => nan
  | val a => val (Real.sin a)

/-- `std::cos`: NaN absorbs, otherwise the real cosine. -/
noncomputable def fcos : FloatVal → FloatVal
  | nan => nan
  | val a => val (Real.cos a)

/-- The helper `clamp` under IEEE comparisons, for finite bounds: every
comparison against NaN is false, so a NaN value falls through both branches
and is returned unchanged. -/
noncomputable def fclamp (value : FloatVal) (lo hi : ℝ) : FloatVal :=
  match value with
  | nan => nan
  | val v => if v < lo then val lo else if v ≥ hi then val hi else val v

end FloatVal

/-- Componentwise `Vect3` of float values built from a real vector. -/
def toFloatVect (v : Vect3 ℝ) : Vect3 FloatVal :=
  ⟨FloatVal.val v.x, FloatVal.val v.y, FloatVal.val v.z⟩

/-- `godot::Vector3::length` under the float-value model. -/
noncomputable def flength (v : Vect3 FloatVal) : FloatVal :=
  FloatVal.fsqrt (FloatVal.fadd (FloatVal.fadd (FloatVal.fmul v.x v.x)
    (FloatVal.fmul v.y v.y)) (FloatVal.fmul v.z v.z))

/-- `godot::Vector3::dot` under the float-value model. -/
noncomputable def fdot (v w : Vect3 FloatVal) : FloatVal :=
  FloatVal.fadd (FloatVal.fadd (FloatVal.fmul v.x w.x) (FloatVal.fmul v.y w.y))
    (FloatVal.fmul v.z w.z)

/-- Vector divided by a scalar float value, componentwise. -/
noncomputable def fdivScalar (v : Vect3 FloatVal) (s : FloatVal) : Vect3 FloatVal :=
  ⟨FloatVal.fdiv v.x s, FloatVal.fdiv v.y s, FloatVal.fdiv v.z s⟩

/-- `ActorPhysics::rechargeStepClimbBudget` under the float-value model,
returning the new `stepClimbingBudget`.  The configuration inputs (gravity
vector, maximum step height, current budget) are finite floats, modelled as
plain reals; everything derived from the attempted translation is tracked for
NaN.  Every step follows the source: the distance, the unguarded division by
the distance, the dot product with the normalized gravity vector, the angle
to the floor plane, the vertical and horizontal movement split, and the final
clamp of the budget plus their balance. -/
noncomputable def rechargeStepClimbBudgetFloat (gravityVector : Vect3 ℝ)
    (maximumStepHeight stepClimbingBudget : ℝ) (translation : Vect3 ℝ) : FloatVal :=
  let distance := flength (toFloatVect translation)
  let direction := fdivScalar (toFloatVect translation) distance
  let directionDotGravity := fdot (toFloatVect gravityVector.normalized) direction
  let angleToFloorPlane := FloatVal.fsub (FloatVal.val HalfPI)
    (FloatVal.facos directionDotGravity)
  let verticalMovement := FloatVal.fmul (FloatVal.fsin angleToFloorPlane) distance
  let horizontalMovement := FloatVal.fmul (FloatVal.fcos angleToFloorPlane) distance
  let balance := FloatVal.fsub horizontalMovement verticalMovement
  FloatVal.fclamp (FloatVal.fadd (FloatVal.val stepClimbingBudget) balance)
    (-maximumStepHeight) 0

/-- Membership of a float value in a closed real interval under IEEE
comparisons: `lo <= v && v <= hi`.  Every comparison against NaN is false,
so NaN lies within no interval. -/
def FloatVal.withinClosedInterval (v : FloatVal) (lo hi : ℝ) : Prop :=
  match v with
  | FloatVal.nan => False
  | FloatVal.val x => lo ≤ x ∧ x ≤ hi

/-! ### Helper lemmas -/

theorem clamp_le [LinearOrder α] (value lo hi : α) (h : lo ≤ hi) :
    clamp value lo hi ≤ hi := by
  unfold clamp
  split_ifs with h1 h2
  · exact h
  · exact le_refl hi
  · exact le_of_not_le (fun hge => h2 hge)

theorem le_clamp [LinearOrder α] (value lo hi : α) (h : lo ≤ hi) :
    lo ≤ clamp value lo hi := by
  unfold clamp
  split_ifs with h1 h2
  · exact le_refl lo
  · exact h
  · exact le_of_not_lt h1

theorem recharge_preserves_MaximumStepHeight (s : ActorPhysics ℝ) (t : Vect3 ℝ) :
    (rechargeStepClimbBudget s t).MaximumStepHeight = s.MaximumStepHeight := rfl

theorem recharge_budget_mem (s : ActorPhysics ℝ) (t : Vect3 ℝ)
    (h : 0 ≤ s.MaximumStepHeight) :
    -s.MaximumStepHeight ≤ (rechargeStepClimbBudget s t).stepClimbingBudget ∧
      (rechargeStepClimbBudget s t).stepClimbingBudget ≤ 0 := by
  have hlohi : -s.MaximumStepHeight ≤ (0 : ℝ) := neg_nonpos.mpr h
  exact ⟨le_clamp _ _ _ hlohi, clamp_le _ _ _ hlohi⟩

/-- For a nonzero attempted translation the IEEE float-value model of the
step-climb recharge computes exactly the budget of the real-division model:
the only division whose divisor can vanish is the one by the movement
distance, and a nonzero translation has a nonzero distance.  This is the
faithfulness bound of `rechargeStepClimbBudget`: outside it (at the zero
translation) the program produces NaN instead. -/
theorem rechargeFloat_agrees_on_nonzero (s : ActorPhysics ℝ) (t : Vect3 ℝ)
    (h : t ≠ Vect3.zero) :
    rechargeStepClimbBudgetFloat s.GravityVector s.MaximumStepHeight
        s.stepClimbingBudget t =
      FloatVal.val (rechargeStepClimbBudget s t).stepClimbingBudget := by
  have hsum : t.x * t.x + t.y * t.y + t.z * t.z ≠ 0 := by
    intro h0
    apply h
    have hx : t.x = 0 := by
      nlinarith [mul_self_nonneg t.x, mul_self_nonneg t.y, mul_self_nonneg t.z]
    have hy : t.y = 0 := by
      nlinarith [mul_self_nonneg t.x, mul_self_nonneg t.y, mul_self_nonneg t.z]
    have hz : t.z = 0 := by
      nlinarith [mul_self_nonneg t.x, mul_self_nonneg t.y, mul_self_nonneg t.z]
    exact Vect3.ext hx hy hz
  have hpos : 0 < t.x * t.x + t.y * t.y + t.z * t.z :=
    lt_of_le_of_ne
      (add_nonneg (add_nonneg (mul_self_nonneg t.x) (mul_self_nonneg t.y))
        (mul_self_nonneg t.z))
      (Ne.symm hsum)
  have hd : Real.sqrt (t.x * t.x + t.y * t.y + t.z * t.z) ≠ 0 :=
    ne_of_gt (Real.sqrt_pos.mpr hpos)
  simp only [rechargeStepClimbBudgetFloat, rechargeStepClimbBudget, flength,
    fdot, fdivScalar, toFloatVect, Vect3.length, Vect3.normalized,
    Vect3.divScalar, Vect3.dot, FloatVal.fadd, FloatVal.fmul, FloatVal.fsub,
    FloatVal.fsqrt, FloatVal.fdiv, FloatVal.facos, FloatVal.fsin,
    FloatVal.fcos, FloatVal.fclamp, clamp, if_neg hd]
  split_ifs <;> rfl

/-! ### Claim theorems -/

/-- C1: for every initial velocity `v` and every `deltaSeconds` `dt`, the
midpoint integration of a state with zero queued forces, impulses and
movement and a zero half-step carry returns the translation `v * dt`
exactly, leaves the velocity at `v`, and leaves the carry at zero. -/
theorem integrate_no_forces_conserves_velocity {α : Type} [LinearOrderedField α]
    (s : ActorPhysics α) (dt : α) (hMass : 0 < s.Mass)
    (hF : s.queuedForces = Vect3.zero) (hI : s.queuedImpulses = Vect3.zero)
    (hQ : s.queuedMovement = Vect3.zero) (hC : s.midPointVelocity = Vect3.zero) :
    (integrateViaMidpointMethod s dt).1 = s.Velocity.smul dt ∧
    (integrateViaMidpointMethod s dt).2.Velocity = s.Velocity ∧
    (integrateViaMidpointMethod s dt).2.midPointVelocity = Vect3.zero := by
  refine ⟨?_, ?_, ?_⟩ <;>
    simp [integrateViaMidpointMethod, hF, hI, hQ, hC, Vect3.zero, Vect3.smul,
      Vect3.divScalar, Vect3.add_def]

/-- An `ActorPhysics` state with zero queues and carry, used to instantiate
`integrate_no_forces_conserves_velocity` at a concrete input. -/
def witnessStateNoForces : ActorPhysics ℚ where
  IsAffectedByGravity := true
  GravityVector := ⟨0, -9.80665, 0⟩
  GravityScale := 1
  Mass := 85
  MaximumStepHeight := 0.25
  Velocity := ⟨1, 2, 3⟩
  UseHighQualityIntegration := false
  KinematicBodyNodePath := ""
  queuedForces := Vect3.zero
  queuedImpulses := Vect3.zero
  queuedMovement := Vect3.zero
  midPointVelocity := Vect3.zero
  stepClimbingBudget := 0

theorem integrate_no_forces_conserves_velocity_witness :
    (0 : ℚ) < witnessStateNoForces.Mass ∧
    ((integrateViaMidpointMethod witnessStateNoForces 2).1 =
        witnessStateNoForces.Velocity.smul 2 ∧
      (integrateViaMidpointMethod witnessStateNoForces 2).2.Velocity =
        witnessStateNoForces.Velocity ∧
      (integrateViaMidpointMethod witnessStateNoForces 2).2.midPointVelocity =
        Vect3.zero) :=
  ⟨by norm_num [witnessStateNoForces],
    integrate_no_forces_conserves_velocity witnessStateNoForces 2
      (by norm_num [witnessStateNoForces]) rfl rfl rfl rfl⟩

/-- C2 (counterexample): the claim quantifies over arbitrary
attempted-translation vectors, which includes the zero vector.  There the
unguarded division of the source divides `0.0f` by `0.0f`, and under IEEE
float semantics the budget becomes NaN, which lies inside no closed
interval — in particular it has left `[-maximumStepHeight, 0]` (evaluated at
the default configuration, budget `0`, maximum step height `0.25`). -/
theorem stepClimbBudget_zero_translation_counterexample :
    ¬ FloatVal.withinClosedInterval
        (rechargeStepClimbBudgetFloat ⟨0, -9.80665, 0⟩ 0.25 0 ⟨0, 0, 0⟩)
        (-0.25) 0 := by
  simp [FloatVal.withinClosedInterval, rechargeStepClimbBudgetFloat, flength,
    fdot, fdivScalar, toFloatVect, FloatVal.fadd, FloatVal.fmul,
    FloatVal.fsub, FloatVal.fsqrt, FloatVal.fdiv, FloatVal.facos,
    FloatVal.fsin, FloatVal.fcos, FloatVal.fclamp]

/-- C2 (amended): for every positive `MaximumStepHeight`, every starting
budget inside `[-MaximumStepHeight, 0]` and every sequence of
`rechargeStepClimbBudget` calls whose attempted translations are all
nonzero, the budget stays inside `[-MaximumStepHeight, 0]` (stated for the
fold over any list of nonzero translations, which covers every prefix of any
call sequence).  On this domain the real-division model is exactly the IEEE
float computation, by `rechargeFloat_agrees_on_nonzero`; the excluded zero
translation is the NaN slip of the counterexample above and of C3. -/
theorem stepClimbBudget_bounds_nonzero_foldl (s : ActorPhysics ℝ)
    (ts : List (Vect3 ℝ))
    (hmax : 0 < s.MaximumStepHeight)
    (hlo : -s.MaximumStepHeight ≤ s.stepClimbingBudget)
    (hhi : s.stepClimbingBudget ≤ 0)
    (hts : ∀ t ∈ ts, t ≠ Vect3.zero) :
    -s.MaximumStepHeight ≤ (ts.foldl rechargeStepClimbBudget s).stepClimbingBudget ∧
    (ts.foldl rechargeStepClimbBudget s).stepClimbingBudget ≤ 0 := by
  induction ts generalizing s with
  | nil => exact ⟨hlo, hhi⟩
  | cons t ts ih =>
      have hmem := recharge_budget_mem s t hmax.le
      have hstep : (rechargeStepClimbBudget s t).MaximumStepHeight =
          s.MaximumStepHeight := rfl
      have := ih (rechargeStepClimbBudget s t) (by rw [hstep]; exact hmax)
        (by rw [hstep]; exact hmem.1) hmem.2
        (fun u hu => hts u (List.mem_cons_of_mem t hu))
      simpa [List.foldl_cons, hstep] using this

/-- A concrete state used to instantiate `stepClimbBudget_bounds_nonzero_foldl`. -/
noncomputable def witnessStateBudget : ActorPhysics ℝ where
  IsAffectedByGravity := true
  GravityVector := ⟨0, -9.80665, 0⟩
  GravityScale := 1
  Mass := 85
  MaximumStepHeight := 0.25
  Velocity := Vect3.zero
  UseHighQualityIntegration := false
  KinematicBodyNodePath := ""
  queuedForces := Vect3.zero
  queuedImpulses := Vect3.zero
  queuedMovement := Vect3.zero
  midPointVelocity := Vect3.zero
  stepClimbingBudget := 0

theorem stepClimbBudget_bounds_nonzero_foldl_witness :
    ((0 : ℝ) < witnessStateBudget.MaximumStepHeight ∧
      (∀ t ∈ ([⟨1, 0, 0⟩, ⟨0, 1, 0⟩] : List (Vect3 ℝ)), t ≠ Vect3.zero)) ∧
    (-witnessStateBudget.MaximumStepHeight ≤
        (([⟨1, 0, 0⟩, ⟨0, 1, 0⟩] : List (Vect3 ℝ)).foldl rechargeStepClimbBudget
          witnessStateBudget).stepClimbingBudget ∧
      (([⟨1, 0, 0⟩, ⟨0, 1, 0⟩] : List (Vect3 ℝ)).foldl rechargeStepClimbBudget
          witnessStateBudget).stepClimbingBudget ≤ 0) :=
  ⟨⟨by norm_num [witnessStateBudget],
     by
       intro t ht
       simp only [List.mem_cons, List.not_mem_nil, or_false] at ht
       rcases ht with rfl | rfl <;>
         simp [Vect3.zero, Vect3.mk.injEq]⟩,
    stepClimbBudget_bounds_nonzero_foldl witnessStateBudget [⟨1, 0, 0⟩, ⟨0, 1, 0⟩]
      (by norm_num [witnessStateBudget])
      (by norm_num [witnessStateBudget])
      (by norm_num [witnessStateBudget])
      (by
        intro t ht
        simp only [List.mem_cons, List.not_mem_nil, or_false] at ht
        rcases ht with rfl | rfl <;>
          simp [Vect3.zero, Vect3.mk.injEq])⟩

/-- C3 (code bug exhibit): the source has no zero-distance guard, so calling
`rechargeStepClimbBudget` with a zero attempted translation divides the zero
vector by the zero distance; under IEEE float semantics the quotient is NaN
and the NaN propagates through the trigonometry and the final `clamp` into
`stepClimbingBudget`, instead of the call being the no-op the spec
describes.  Evaluated at the default configuration (gravity
`(0, -9.80665, 0)`, maximum step height `0.25`, budget `0`). -/
theorem recharge_zero_translation_budget_nan :
    rechargeStepClimbBudgetFloat ⟨0, -9.80665, 0⟩ 0.25 0 ⟨0, 0, 0⟩ =
      FloatVal.nan := by
  simp [rechargeStepClimbBudgetFloat, flength, fdot, fdivScalar, toFloatVect,
    FloatVal.fadd, FloatVal.fmul, FloatVal.fsub, FloatVal.fsqrt, FloatVal.fdiv,
    FloatVal.facos, FloatVal.fsin, FloatVal.fcos, FloatVal.fclamp]

/-- A state with a queued direct movement, showing that integration with
`deltaSeconds = 0` does not return the zero translation. -/
def zeroDtMovementState : ActorPhysics ℚ where
  IsAffectedByGravity := true
  GravityVector := ⟨0, -9.80665, 0⟩
  GravityScale := 1
  Mass := 85
  MaximumStepHeight := 0.25
  Velocity := Vect3.zero
  UseHighQualityIntegration := false
  KinematicBodyNodePath := ""
  queuedForces := Vect3.zero
  queuedImpulses := Vect3.zero
  queuedMovement := ⟨1, 0, 0⟩
  midPointVelocity := Vect3.zero
  stepClimbingBudget := 0

/-- C4 (counterexample): with `deltaSeconds = 0` and a queued movement of
`(1, 0, 0)`, the midpoint integration returns the translation `(1, 0, 0)`,
not the zero vector the claim states. -/
theorem integrate_zero_dt_counterexample :
    ¬ ((integrateViaMidpointMethod zeroDtMovementState 0).1 = Vect3.zero) := by
  norm_num [integrateViaMidpointMethod, zeroDtMovementState, Vect3.zero,
    Vect3.smul, Vect3.divScalar, Vect3.add_def, Vect3.mk.injEq]

/-- C4 (amended): for every state, the midpoint integration with
`deltaSeconds = 0` returns `queuedMovement` as the translation (so the zero
vector exactly when `queuedMovement` is zero), while still adding the
previous half-step carry and `queuedImpulses / Mass` to the velocity and
setting the new half-step carry to zero. -/
theorem integrate_zero_dt_behavior {α : Type} [LinearOrderedField α]
    (s : ActorPhysics α) :
    (integrateViaMidpointMethod s 0).1 = s.queuedMovement ∧
    (integrateViaMidpointMethod s 0).2.Velocity =
      s.Velocity + s.midPointVelocity + s.queuedImpulses.divScalar s.Mass ∧
    (integrateViaMidpointMethod s 0).2.midPointVelocity = Vect3.zero := by
  refine ⟨?_, ?_, ?_⟩ <;>
    simp [integrateViaMidpointMethod, Vect3.zero, Vect3.smul, Vect3.divScalar,
      Vect3.add_def]

/-- A state with mass `1` and a queued impulse, for the mass-invariance
counterexample. -/
def massOneImpulseState : ActorPhysics ℚ where
  IsAffectedByGravity := true
  GravityVector := ⟨0, -10, 0⟩
  GravityScale := 1
  Mass := 1
  MaximumStepHeight := 0.25
  Velocity := Vect3.zero
  UseHighQualityIntegration := false
  KinematicBodyNodePath := ""
  queuedForces := Vect3.zero
  queuedImpulses := ⟨1, 0, 0⟩
  queuedMovement := Vect3.zero
  midPointVelocity := Vect3.zero
  stepClimbingBudget := 0

/-- The same state as `massOneImpulseState` except for its mass, `2`. -/
def massTwoImpulseState : ActorPhysics ℚ :=
  { massOneImpulseState with Mass := 2 }

/-- C5 (counterexample): two states identical except for their positive
masses `1` and `2`, both with queued impulse `(1, 0, 0)`: after
`ApplyGravity` with the same gravity vector followed by integration over the
same `deltaSeconds = 1`, the changes to the velocity differ (the queued
impulse is divided by the mass, which does not cancel), so the velocity
change and new carry are not both equal as the claim states. -/
theorem gravity_mass_invariance_counterexample :
    ¬ (((integrateViaMidpointMethod
            (ApplyGravity massOneImpulseState ⟨0, -10, 0⟩) 1).2.Velocity -
          massOneImpulseState.Velocity =
        (integrateViaMidpointMethod
            (ApplyGravity massTwoImpulseState ⟨0, -10, 0⟩) 1).2.Velocity -
          massTwoImpulseState.Velocity) ∧
       (integrateViaMidpointMethod
          (ApplyGravity massOneImpulseState ⟨0, -10, 0⟩) 1).2.midPointVelocity =
        (integrateViaMidpointMethod
          (ApplyGravity massTwoImpulseState ⟨0, -10, 0⟩) 1).2.midPointVelocity) := by
  norm_num [integrateViaMidpointMethod, ApplyGravity, QueueForce,
    massOneImpulseState, massTwoImpulseState, Vect3.zero, Vect3.smul,
    Vect3.divScalar, Vect3.add_def, Vect3.sub_def, Vect3.mk.injEq]

/-- C5 (amended): for any two states with zero `queuedForces` and zero
`queuedImpulses`, identical in velocity, gravity scale and half-step carry
but with arbitrary positive masses, applying `ApplyGravity g` and then the
midpoint integration over the same `deltaSeconds` produces the same change
to the velocity and the same new half-step carry: the mass queued by
`ApplyGravity` cancels against the division by the mass inside the
integration. -/
theorem gravity_velocity_change_mass_invariant {α : Type} [LinearOrderedField α]
    (s1 s2 : ActorPhysics α) (g : Vect3 α) (dt : α)
    (h1 : 0 < s1.Mass) (h2 : 0 < s2.Mass)
    (hVel : s1.Velocity = s2.Velocity) (hScale : s1.GravityScale = s2.GravityScale)
    (hCarry : s1.midPointVelocity = s2.midPointVelocity)
    (hF1 : s1.queuedForces = Vect3.zero) (hF2 : s2.queuedForces = Vect3.zero)
    (hI1 : s1.queuedImpulses = Vect3.zero) (hI2 : s2.queuedImpulses = Vect3.zero) :
    (integrateViaMidpointMethod (ApplyGravity s1 g) dt).2.Velocity - s1.Velocity =
      (integrateViaMidpointMethod (ApplyGravity s2 g) dt).2.Velocity - s2.Velocity ∧
    (integrateViaMidpointMethod (ApplyGravity s1 g) dt).2.midPointVelocity =
      (integrateViaMidpointMethod (ApplyGravity s2 g) dt).2.midPointVelocity := by
  have hm1 : s1.Mass ≠ 0 := ne_of_gt h1
  have hm2 : s2.Mass ≠ 0 := ne_of_gt h2
  constructor
  · apply Vect3.ext <;>
      · simp [integrateViaMidpointMethod, ApplyGravity, QueueForce, hF1, hF2,
          hI1, hI2, hVel, hScale, hCarry, Vect3.zero, Vect3.smul,
          Vect3.divScalar, Vect3.add_def, Vect3.sub_def]
        field_simp
        exact Or.inl (by ring)
  · apply Vect3.ext <;>
      · simp [integrateViaMidpointMethod, ApplyGravity, QueueForce, hF1, hF2,
          hI1, hI2, hScale, Vect3.zero, Vect3.smul, Vect3.divScalar,
          Vect3.add_def]
        field_simp
        exact Or.inl (by ring)

/-- Two concrete states for the amended mass-invariance theorem: masses `1`
and `2`, no queued forces or impulses. -/
def massOneCleanState : ActorPhysics ℚ :=
  { massOneImpulseState with queuedImpulses := Vect3.zero }

/-- The same state as `massOneCleanState` except for its mass, `2`. -/
def massTwoCleanState : ActorPhysics ℚ :=
  { massOneCleanState with Mass := 2 }

theorem gravity_velocity_change_mass_invariant_witness :
    ((0 : ℚ) < massOneCleanState.Mass ∧ (0 : ℚ) < massTwoCleanState.Mass) ∧
    ((integrateViaMidpointMethod
          (ApplyGravity massOneCleanState ⟨0, -10, 0⟩) 1).2.Velocity -
        massOneCleanState.Velocity =
      (integrateViaMidpointMethod
          (ApplyGravity massTwoCleanState ⟨0, -10, 0⟩) 1).2.Velocity -
        massTwoCleanState.Velocity ∧
      (integrateViaMidpointMethod
          (ApplyGravity massOneCleanState ⟨0, -10, 0⟩) 1).2.midPointVelocity =
        (integrateViaMidpointMethod
          (ApplyGravity massTwoCleanState ⟨0, -10, 0⟩) 1).2.midPointVelocity) :=
  ⟨⟨by norm_num [massOneCleanState, massOneImpulseState],
     by norm_num [massTwoCleanState, massOneCleanState, massOneImpulseState]⟩,
    gravity_velocity_change_mass_invariant massOneCleanState massTwoCleanState
      ⟨0, -10, 0⟩ 1
      (by norm_num [massOneCleanState, massOneImpulseState])
      (by norm_num [massTwoCleanState, massOneCleanState, massOneImpulseState])
      rfl rfl rfl rfl rfl rfl rfl⟩

/-- The default-constructed `ActorPhysics` state of the source: mass `85`,
earth gravity, gravity scale `1`, zero velocity, zero queues and carry. -/
def defaultState : ActorPhysics ℚ where
  IsAffectedByGravity := true
  GravityVector := ⟨0, -9.80665, 0⟩
  GravityScale := 1
  Mass := 85
  MaximumStepHeight := 0.25
  Velocity := Vect3.zero
  UseHighQualityIntegration := false
  KinematicBodyNodePath := ""
  queuedForces := Vect3.zero
  queuedImpulses := Vect3.zero
  queuedMovement := Vect3.zero
  midPointVelocity := Vect3.zero
  stepClimbingBudget := 0

/-- C6: starting from the default state (mass `85`, gravity
`(0, -9.80665, 0)`, gravity scale `1`, zero velocity, zero queues and
carry), queuing gravity as a force and integrating with
`deltaSeconds = 0.016` leaves the vertical velocity at exactly half of
`-9.80665 * 0.016`, with the new half-step carry holding the other half,
`(0, -9.80665 * 0.016 * 0.5, 0)`. -/
theorem gravity_half_step_scenario :
    ((integrateViaMidpointMethod
        (ApplyGravity defaultState defaultState.GravityVector) 0.016).2.Velocity).y =
      -9.80665 * 0.016 * 0.5 ∧
    (integrateViaMidpointMethod
        (ApplyGravity defaultState defaultState.GravityVector) 0.016).2.midPointVelocity =
      ⟨0, -9.80665 * 0.016 * 0.5, 0⟩ := by
  norm_num [integrateViaMidpointMethod, ApplyGravity, QueueForce, defaultState,
    Vect3.zero, Vect3.smul, Vect3.divScalar, Vect3.add_def, Vect3.mk.injEq]

/-- C7: when the squared distance between the recorded velocity and the
reported velocity does not exceed the epsilon threshold, the reconciler
leaves the velocity unchanged except that every axis whose reported component
magnitude is below the threshold becomes exactly zero — the horizontal axes
only when `updateHorizontalVelocity` is set, the vertical axis always. -/
theorem updateVelocity_below_epsilon {α : Type} [LinearOrderedField α]
    (velocity newVelocity : Vect3 α) (updateHorizontalVelocity : Bool)
    (h : velocity.distance_squared_to newVelocity ≤ VelocityEpsilon α) :
    updateVelocity velocity newVelocity updateHorizontalVelocity =
      ⟨if updateHorizontalVelocity = true ∧ |newVelocity.x| < VelocityEpsilon α
          then 0 else velocity.x,
        if |newVelocity.y| < VelocityEpsilon α then 0 else velocity.y,
        if updateHorizontalVelocity = true ∧ |newVelocity.z| < VelocityEpsilon α
          then 0 else velocity.z⟩ := by
  have hgt : ¬ (velocity.distance_squared_to newVelocity > VelocityEpsilon α) :=
    not_lt.mpr h
  cases updateHorizontalVelocity <;>
    · simp only [updateVelocity, hgt, if_false, Bool.false_eq_true, Bool.true_eq_false,
        true_and, false_and, if_true, ite_false, ite_true]
      split_ifs <;> simp_all

theorem updateVelocity_below_epsilon_witness :
    ((⟨5, 1/20000, 0⟩ : Vect3 ℚ).distance_squared_to ⟨5, 1/20000, 0⟩ ≤
        VelocityEpsilon ℚ) ∧
    updateVelocity (⟨5, 1/20000, 0⟩ : Vect3 ℚ) ⟨5, 1/20000, 0⟩ true =
      ⟨if (true : Bool) = true ∧ |(5 : ℚ)| < VelocityEpsilon ℚ then 0 else 5,
        if |(1/20000 : ℚ)| < VelocityEpsilon ℚ then 0 else 1/20000,
        if (true : Bool) = true ∧ |(0 : ℚ)| < VelocityEpsilon ℚ then 0 else 0⟩ :=
  ⟨by norm_num [Vect3.distance_squared_to, VelocityEpsilon],
    updateVelocity_below_epsilon ⟨5, 1/20000, 0⟩ ⟨5, 1/20000, 0⟩ true
      (by norm_num [Vect3.distance_squared_to, VelocityEpsilon])⟩

/-- C8: for every state and every `deltaSeconds`, both integration paths
leave `queuedForces`, `queuedImpulses` and `queuedMovement` exactly zero in
the returned state. -/
theorem queues_cleared_after_integration {α : Type} [LinearOrderedField α]
    (s : ActorPhysics α) (dt : α) :
    (integrateViaMidpointMethod s dt).2.queuedForces = Vect3.zero ∧
    (integrateViaMidpointMethod s dt).2.queuedImpulses = Vect3.zero ∧
    (integrateViaMidpointMethod s dt).2.queuedMovement = Vect3.zero ∧
    (integrateViaRungeKutta4Method s dt).2.queuedForces = Vect3.zero ∧
    (integrateViaRungeKutta4Method s dt).2.queuedImpulses = Vect3.zero ∧
    (integrateViaRungeKutta4Method s dt).2.queuedMovement = Vect3.zero :=
  ⟨rfl, rfl, rfl, rfl, rfl, rfl⟩

/-- C9: for every state and every `deltaSeconds`, the high-quality
integration path returns the same translation and the same final state as
the baseline midpoint path: the source delegates to the midpoint integrator
after printing its diagnostic. -/
theorem rungeKutta4_matches_midpoint {α : Type} [LinearOrderedField α]
    (s : ActorPhysics α) (dt : α) :
    (integrateViaRungeKutta4Method s dt).1 = (integrateViaMidpointMethod s dt).1 ∧
    (integrateViaRungeKutta4Method s dt).2 = (integrateViaMidpointMethod s dt).2 :=
  ⟨rfl, rfl⟩

/-- C10: when the kinematic-body lookup fails at the start of a physics
tick, `_physics_process` returns before applying gravity or integrating and
the whole component state — velocity, half-step carry, step-climb budget and
all three queues — is unchanged, so queued influences are retained for the
next successful tick. -/
theorem physicsProcess_missing_body_is_noop (s : ActorPhysics ℝ)
    (moveActor : Vect3 ℝ → ℝ → Vect3 ℝ) (deltaSeconds : ℝ) :
    physicsProcess s false moveActor deltaSeconds = s := by
  simp [physicsProcess]

end ActorPhysicsSpec
